import Mathlib

/-!
Verification of the caption layout and stanza-clip composition engine of the
poem-short-generator repository (`src/video/video_maker.py`, constants from
`src/settings.py`).

The Python code is shallowly embedded:
* Python `str` is Lean `String`; character-level helpers (`str.split('\n')`,
  `str.split()`, `str.strip()`) are modelled on `String.data` so that their
  behaviour is fully specified inside the embedding.
* A PIL font is abstracted by the measurements the code actually takes from
  it: `PILFont.width s` models `draw.textbbox((0,0), s, font)[2] - bbox[0]`
  (the pixel width of a rendered string) and `PILFont.spaceWidth` models
  `draw.textbbox((0,0), " ", font)[2]`, exactly the two quantities
  `_wrap_text` reads.  The pixel width of a whole caption line
  `" ".join(words)` is modelled additively (`lineWidth`): word widths plus
  one space advance between consecutive words, which is the metric the
  wrapping loop itself accumulates.
* External effects (filesystem, audio decoding, moviepy, PIL font loading)
  are oracles collected in a `World` record; fallible external calls return
  `Except`/`Option` and Python exceptions raised by `build_video` are the
  `PyError` values of its result.
-/

/-! ### Constants from `src/settings.py` -/

def VIDEO_WIDTH : Nat := 1080

def VIDEO_HEIGHT : Nat := 1920

def VIDEO_FPS : Nat := 30

def CAPTION_FONT : String := "Arial"

def CAPTION_FONT_SIZE : Nat := 48

def CAPTION_MAX_WIDTH : Nat := 900

def CAPTION_POSITION : String := "center"

def CAPTION_STROKE_WIDTH : Nat := 2

/-! ### Python string helpers -/

/-- Model of Python `text.split(c)` for a single separator character,
working on the character list: `splitChar c l` cuts `l` at every occurrence
of `c`, keeping empty segments (`"".split('\n') == ['']`). -/
def splitChar (c : Char) : List Char → List (List Char)
  | [] => [[]]
  | a :: as =>
    let r := splitChar c as
    if a = c then [] :: r else (a :: r.headD []) :: r.tail

/-- Model of Python `text.split('\n')` (used by `_wrap_text` line 257 and
`_calculate_font_size` line 315). -/
def splitNl (text : String) : List String :=
  (splitChar '\n' text.data).map String.mk

/-- Groups the maximal runs of non-whitespace characters of a character
list, in order. -/
def wordsAux : List Char → List (List Char)
  | [] => []
  | a :: as =>
    let r := wordsAux as
    if a.isWhitespace then r
    else
      match as with
      | [] => [[a]]
      | b :: _ => if b.isWhitespace then [a] :: r else (a :: r.headD []) :: r.tail

/-- Model of Python `paragraph.split()` (no separator argument): split on
runs of whitespace, dropping empty tokens (`_wrap_text` line 269). -/
def pyWords (s : String) : List String :=
  (wordsAux s.data).map String.mk

/-- Model of the Python test `not paragraph.strip()` (`_wrap_text` line 265):
true iff the string consists only of whitespace, i.e. `strip()` leaves the
empty (falsy) string. -/
def pyIsBlank (s : String) : Bool :=
  s.data.all Char.isWhitespace

/-- Model of Python `text.strip()` (`_create_text_clip` line 147). -/
def pyStrip (s : String) : String :=
  s.trim

/-- `" ".join(words)` (`_wrap_text` lines 290 and 296). -/
def joinSp (ws : List String) : String :=
  String.intercalate " " ws

/-! ### The font abstraction and the additive line-width metric -/

/-- The measurements `_wrap_text` takes from a PIL font object:
`width s` models `textbbox((0,0), s, font)[2] - [0]` for a word `s`, and
`spaceWidth` models `textbbox((0,0), " ", font)[2]`. -/
structure PILFont where
  width : String → Nat
  spaceWidth : Nat

/-- Pixel width of a caption line given as its list of words: word widths
plus one space advance between consecutive words.  This is the additive
metric that `_wrap_text` accumulates in `current_width`. -/
def lineWidth (f : PILFont) (ws : List String) : Nat :=
  (ws.map f.width).sum + (ws.length - 1) * f.spaceWidth

/-! ### `_wrap_text` (video_maker.py lines 244-298) -/

/-- The greedy word-packing loop of `_wrap_text` (lines 273-296).  State:
`current_line` (the words of the open line) and `current_width` (its
accumulated width).  Returns the closed lines as word lists; the Python
code joins each with `" "` the moment it appends it to `wrapped_lines`.

Faithful detail: in the overflow branch the code sets
`current_width = word_width` where `word_width` already includes the space
advance whenever `current_line` was non-empty, so the fresh line starts
with that slight over-count, exactly as in the source. -/
def wrapWords (f : PILFont) (max_width : Nat) :
    List String → List String → Nat → List (List String)
  | [], current_line, _ =>
    if current_line.isEmpty then [] else [current_line]
  | word :: ws, current_line, current_width =>
    let word_width :=
      f.width word + (if current_line.isEmpty then 0 else f.spaceWidth)
    if current_width + word_width ≤ max_width then
      wrapWords f max_width ws (current_line ++ [word]) (current_width + word_width)
    else
      (if current_line.isEmpty then [] else [current_line]) ++
        wrapWords f max_width ws [word] word_width

/-- Processing of one paragraph inside the `for paragraph in paragraphs`
loop of `_wrap_text` (lines 264-296): a blank paragraph appends one empty
line; otherwise the paragraph is split into words and greedily packed. -/
def wrapParagraph (f : PILFont) (max_width : Nat) (paragraph : String) : List String :=
  if pyIsBlank paragraph then [""]
  else (wrapWords f max_width (pyWords paragraph) [] 0).map joinSp

/-- `_wrap_text(text, font, max_width)` (lines 244-298): split on explicit
newlines, wrap each paragraph, and fall back to `[text]` if no line was
produced. -/
def wrap_text (f : PILFont) (max_width : Nat) (text : String) : List String :=
  let wrapped_lines := (splitNl text).flatMap (wrapParagraph f max_width)
  if wrapped_lines.isEmpty then [text] else wrapped_lines

example : splitNl "A B\nC D" = ["A B", "C D"] := by decide
example : splitNl "A\n\nB" = ["A", "", "B"] := by decide
example : splitNl "" = [""] := by decide
example : pyWords "A B" = ["A", "B"] := by decide
example : pyWords "  a   bc " = ["a", "bc"] := by decide
example : pyIsBlank "  " = true := by decide
example : pyIsBlank "a " = false := by decide
example :
    wrap_text ⟨String.length, 1⟩ 3 "aa bb cc\n\nd" = ["aa", "bb", "cc", "", "d"] := by
  decide
example :
    wrap_text ⟨String.length, 1⟩ 5 "aa bb cc" = ["aa bb", "cc"] := by
  decide
example :
    wrap_text ⟨String.length, 1⟩ 4 "aaaaaa bb" = ["aaaaaa", "bb"] := by
  decide

/-! ### `_calculate_font_size` (video_maker.py lines 301-328) -/

/-- Python `max(list)` on a list of naturals (`0` for the empty list, which
the code never reaches because `str.split` never returns an empty list). -/
def listMax (l : List Nat) : Nat :=
  l.foldl Nat.max 0

/-- Character count of the longest explicit line of a text:
`max(len(line) for line in text.split('\n'))`. -/
def longestLineLen (text : String) : Nat :=
  listMax ((splitNl text).map String.length)

/-- `_calculate_font_size(text)` (lines 301-328) with
`base_size = settings.CAPTION_FONT_SIZE = 48`.

Float note: the source computes `int(base_size * (60 / max_line_length))`
and `int(base_size * 1.2)` in IEEE double arithmetic.  For `base_size = 48`
these truncations coincide with the natural-number divisions used here:
`48 * 1.2` evaluates to a double within `1e-14` of `57.6`, so `int` of it
is `57 = 48 * 12 / 10`; and for `L > 60` the exact value `2880 / L` is
either at distance at least `1/L ≥ 1/90 » 1e-13` from every integer (so
truncation agrees with the exact floor), or an exact integer `N ∈ {45, 40,
36, 32}` (for `L ∈ {64, 72, 80, 90}`), where the accumulated rounding
error `48 * 2^-54 < 2.7e-15` is below half an ulp of `N`, so the double
product is exactly `N`; for `L > 90` both computations land at or below
`31` and the `max(·, 32)` clamp makes the results equal. -/
def calculate_font_size (text : String) : Nat :=
  let base_size := CAPTION_FONT_SIZE
  let lines := splitNl text
  let max_line_length := if lines.isEmpty then text.length else listMax (lines.map String.length)
  if 60 < max_line_length then
    max (base_size * 60 / max_line_length) 32
  else if max_line_length < 30 then
    min (base_size * 12 / 10) 72
  else
    base_size

/-- The font-size rule in the words of the specification (claim C3): let
`L` be the character count of the longest line among the text's explicit
line breaks; if `L > 60` the result is `max(floor(base * 60 / L), 32)`;
if `L < 30` the result is `min(floor(base * 1.2), 72) = min 57 72`;
otherwise the base size unchanged (`base = 48`). -/
def fontSizeSpec (text : String) : Nat :=
  let L := longestLineLen text
  if 60 < L then max (CAPTION_FONT_SIZE * 60 / L) 32
  else if L < 30 then min 57 72
  else CAPTION_FONT_SIZE

example : calculate_font_size "" = 57 := by decide
example : calculate_font_size (String.mk (List.replicate 45 'x')) = 48 := by decide
example : calculate_font_size (String.mk (List.replicate 90 'x')) = 32 := by decide
example : calculate_font_size (String.mk (List.replicate 72 'x')) = 40 := by decide
example : calculate_font_size (String.mk (List.replicate 61 'x')) = 47 := by decide

/-! ### External-world oracles -/

/-- The external facts the embedding is parametric in: the filesystem, the
decoded duration of an audio file (`AudioFileClip(path).duration`), PIL
font loading (`ImageFont.truetype`, raising `OSError`/`IOError` modelled
as `Except.error`), the infallible `ImageFont.load_default()`, and the
possible failures of the moviepy calls inside the `try` block of
`build_video` (clip construction, `concatenate_videoclips`,
`write_videofile`), each given as the message of the raised exception. -/
structure World where
  fileExists : String → Bool
  audioDuration : String → ℚ
  loadFont : String → Nat → Except String PILFont
  defaultFont : PILFont
  clipError : Nat → Option String
  concatError : Option String
  writeError : Option String

/-! ### Font resolution inside `_create_text_clip` (lines 152-173) -/

/-- The hard-coded system font candidates (lines 158-162). -/
def FONT_PATH_CANDIDATES : List String :=
  ["/System/Library/Fonts/Helvetica.ttc",
   "/System/Library/Fonts/Arial.ttf",
   "/usr/share/fonts/truetype/dejavu/DejaVuSans.ttf"]

/-- The `for path in font_paths` probe loop (lines 163-169): first
candidate that loads, else `none`. -/
def tryFontPaths (w : World) (size : Nat) : List String → Option PILFont
  | [] => none
  | p :: ps =>
    match w.loadFont p size with
    | Except.ok f => some f
    | Except.error _ => tryFontPaths w size ps

/-- The whole font-resolution chain of `_create_text_clip` (lines 152-173):
try the configured font, then the system candidates, then
`ImageFont.load_default()`.  The `Except` result type records that each
individual load may raise; the chain as a whole is proved never to. -/
def resolve_font (w : World) (requested : String) (size : Nat) : Except String PILFont :=
  match w.loadFont requested size with
  | Except.ok f => Except.ok f
  | Except.error _ =>
    match tryFontPaths w size FONT_PATH_CANDIDATES with
    | some f => Except.ok f
    | none => Except.ok w.defaultFont

/-! ### Clips (`_create_text_clip` lines 135-241, `_create_stanza_clip`
lines 95-132) -/

/-- The pixel content of one moviepy layer, as far as the claims are
concerned: the resized background image, or the caption raster determined
by its wrapped lines and font size.  (The per-glyph stroke drawing and the
vertical placement arithmetic of lines 183-231 produce no value any claim
mentions and are absorbed into the `caption` constructor.) -/
inductive ClipContent where
  | background (path : String) (width height : Nat)
  | caption (lines : List String) (fontSize : Nat)

/-- A moviepy `ImageClip` after `set_duration`/`set_fps`. -/
structure ImageClipM where
  content : ClipContent
  duration : ℚ
  fps : Nat

/-- A moviepy `CompositeVideoClip` with its attached audio. -/
structure CompositeClipM where
  layers : List ImageClipM
  duration : ℚ
  audio : String

/-- `_create_text_clip(text, duration)` (lines 135-241): strip the text,
choose the font size, resolve a font, wrap the text, rasterize, and wrap
the raster in an `ImageClip` with the given duration at `VIDEO_FPS`. -/
def create_text_clip (w : World) (text : String) (duration : ℚ) : ImageClipM :=
  let clean_text := pyStrip text
  let font_size := calculate_font_size clean_text
  let font := (resolve_font w CAPTION_FONT font_size).toOption.getD w.defaultFont
  let lines := wrap_text font CAPTION_MAX_WIDTH clean_text
  { content := ClipContent.caption lines font_size
    duration := duration
    fps := VIDEO_FPS }

/-- `_create_stanza_clip(stanza, audio_path, background_path, n)` (lines
95-132): duration is read from the decoded audio; the background is
resized to the output resolution and given that duration and frame rate;
the text overlay gets the same duration; the composite of the two layers
(whose moviepy duration is the maximum of the layer end times) carries the
audio track. -/
def create_stanza_clip (w : World) (stanza audio_path background_path : String)
    (_stanza_number : Nat) : CompositeClipM :=
  let duration := w.audioDuration audio_path
  let bg_clip : ImageClipM :=
    { content := ClipContent.background background_path VIDEO_WIDTH VIDEO_HEIGHT
      duration := duration
      fps := VIDEO_FPS }
  let text_clip := create_text_clip w stanza duration
  { layers := [bg_clip, text_clip]
    duration := max bg_clip.duration text_clip.duration
    audio := audio_path }

/-! ### `build_video` (lines 15-92) -/

/-- The observable side effects `build_video` performs, in order: creating
the output directory (line 46), building the clip for stanza `i` (line
64), concatenating (line 69), writing the output file (line 73). -/
inductive Effect where
  | mkdirOutputParent
  | createClip (i : Nat)
  | concatenate
  | writeVideo (path : String)
deriving DecidableEq

/-- The exceptions `build_video` can raise: `ValueError` (the structural
validation, the specification's `InvalidInput`) and `RuntimeError` (the
blanket re-raise of line 92). -/
inductive PyError where
  | valueError (msg : String)
  | runtimeError (msg : String)
deriving DecidableEq

/-- Python `zip` over three lists (truncating to the shortest). -/
def zip3 {α β γ : Type} : List α → List β → List γ → List (α × β × γ)
  | a :: as, b :: bs, c :: cs => (a, b, c) :: zip3 as bs cs
  | _, _, _ => []

/-- The clip-construction loop of `build_video` (lines 61-65): build one
clip per `(stanza, audio, background)` triple, stopping with the raised
message if the external decode work for some clip fails. -/
def buildClipsLoop (w : World) :
    List (String × String × String) → Nat → List Effect × Except String (List CompositeClipM)
  | [], _ => ([], Except.ok [])
  | (stanza, audio_path, bg_path) :: rest, i =>
    match w.clipError i with
    | some msg => ([Effect.createClip i], Except.error msg)
    | none =>
      let clip := create_stanza_clip w stanza audio_path bg_path i
      let (es, r) := buildClipsLoop w rest (i + 1)
      (Effect.createClip i :: es, r.map (clip :: ·))

/-- `build_video(backgrounds, stanzas, audio_paths, output_path)` (lines
15-92), returning the ordered effect trace together with the outcome
(returned path or raised exception).  The two structural validations come
first and raise before any effect; then the output directory is created;
then every audio path and the first `len(stanzas)` background paths are
checked for existence (first failure raises `ValueError`); everything
after that point runs inside the `try` block and any failure is re-raised
as `RuntimeError("Video generation failed: ...")`. -/
def build_video (w : World) (backgrounds stanzas audio_paths : List String)
    (output_path : String) : List Effect × Except PyError String :=
  if stanzas.length ≠ audio_paths.length then
    ([], Except.error (PyError.valueError
      ("Mismatch: " ++ toString stanzas.length ++ " stanzas but "
        ++ toString audio_paths.length ++ " audio files")))
  else if backgrounds.length < stanzas.length then
    ([], Except.error (PyError.valueError
      ("Not enough backgrounds: " ++ toString backgrounds.length
        ++ " backgrounds for " ++ toString stanzas.length ++ " stanzas")))
  else
    let effs0 := [Effect.mkdirOutputParent]
    match audio_paths.find? (fun p => ! w.fileExists p) with
    | some p => (effs0, Except.error (PyError.valueError ("Audio file not found: " ++ p)))
    | none =>
      match (backgrounds.take stanzas.length).find? (fun p => ! w.fileExists p) with
      | some p =>
        (effs0, Except.error (PyError.valueError ("Background image not found: " ++ p)))
      | none =>
        let (es1, clipsR) := buildClipsLoop w (zip3 stanzas audio_paths backgrounds) 1
        match clipsR with
        | Except.error msg =>
          (effs0 ++ es1, Except.error (PyError.runtimeError ("Video generation failed: " ++ msg)))
        | Except.ok _clips =>
          match w.concatError with
          | some msg =>
            (effs0 ++ es1 ++ [Effect.concatenate],
             Except.error (PyError.runtimeError ("Video generation failed: " ++ msg)))
          | none =>
            match w.writeError with
            | some msg =>
              (effs0 ++ es1 ++ [Effect.concatenate, Effect.writeVideo output_path],
               Except.error (PyError.runtimeError ("Video generation failed: " ++ msg)))
            | none =>
              (effs0 ++ es1 ++ [Effect.concatenate, Effect.writeVideo output_path],
               Except.ok output_path)

/-! ### Helper lemmas -/

theorem splitChar_ne_nil (c : Char) (l : List Char) : splitChar c l ≠ [] := by
  induction l with
  | nil => simp [splitChar]
  | cons a as ih => simp only [splitChar]; split <;> simp

theorem splitNl_ne_nil (text : String) : splitNl text ≠ [] := by
  intro h
  exact splitChar_ne_nil '\n' text.data (List.map_eq_nil_iff.mp h)

theorem splitNl_isEmpty (text : String) : (splitNl text).isEmpty = false := by
  cases h : splitNl text with
  | nil => exact absurd h (splitNl_ne_nil text)
  | cons a l => rfl

theorem splitChar_append (c : Char) (xs ys : List Char) (h : c ∉ xs) :
    splitChar c (xs ++ c :: ys) = xs :: splitChar c ys := by
  induction xs with
  | nil => simp [splitChar]
  | cons a as ih =>
    have ha : ¬ a = c := by rintro rfl; exact h (List.mem_cons_self _ _)
    have h' : c ∉ as := fun hm => h (List.mem_cons_of_mem _ hm)
    simp [splitChar, ih h', ha]

theorem mk_data (s : String) : String.mk s.data = s := rfl

theorem wordsAux_ne_nil (l : List Char) (h : l.all Char.isWhitespace = false) :
    wordsAux l ≠ [] := by
  induction l with
  | nil => simp at h
  | cons a as ih =>
    by_cases hw : a.isWhitespace
    · have has : as.all Char.isWhitespace = false := by
        simp [List.all_cons, hw] at h; simpa using h
      simpa [wordsAux, hw] using ih has
    · cases as with
      | nil => simp [wordsAux, hw]
      | cons b bs => by_cases hb : b.isWhitespace <;> simp [wordsAux, hw, hb]

theorem pyWords_ne_nil (p : String) (h : pyIsBlank p = false) : pyWords p ≠ [] := by
  intro hnil
  exact wordsAux_ne_nil p.data h (List.map_eq_nil_iff.mp hnil)

theorem wrapWords_ne_nil (f : PILFont) (m : Nat) :
    ∀ (ws cur : List String) (cw : Nat), ws ≠ [] ∨ cur ≠ [] →
      wrapWords f m ws cur cw ≠ [] := by
  intro ws
  induction ws with
  | nil =>
    intro cur cw h
    rcases h with h | h
    · exact absurd rfl h
    · simp [wrapWords, List.isEmpty_iff, h]
  | cons w ws ih =>
    intro cur cw _
    simp only [wrapWords]
    by_cases hfit : cw + (f.width w + if cur.isEmpty then 0 else f.spaceWidth) ≤ m
    · rw [if_pos hfit]
      exact ih _ _ (Or.inr (by simp))
    · rw [if_neg hfit]
      intro hcontra
      rcases List.append_eq_nil.mp hcontra with ⟨_, h2⟩
      exact ih _ _ (Or.inr (by simp)) h2

theorem wrapParagraph_ne_nil (f : PILFont) (m : Nat) (p : String) :
    wrapParagraph f m p ≠ [] := by
  unfold wrapParagraph
  split
  · simp
  · rename_i h
    intro hnil
    have hb : pyIsBlank p = false := by simpa using h
    exact wrapWords_ne_nil f m _ [] 0 (Or.inl (pyWords_ne_nil p hb))
      (List.map_eq_nil_iff.mp hnil)

theorem wrap_flatMap_ne_nil (f : PILFont) (m : Nat) (text : String) :
    (splitNl text).flatMap (wrapParagraph f m) ≠ [] := by
  obtain ⟨p, rest, hpr⟩ := List.exists_cons_of_ne_nil (splitNl_ne_nil text)
  rw [hpr, List.flatMap_cons]
  intro hnil
  rcases List.append_eq_nil.mp hnil with ⟨h1, _⟩
  exact wrapParagraph_ne_nil f m p h1

theorem wrap_text_eq (f : PILFont) (m : Nat) (text : String) :
    wrap_text f m text = (splitNl text).flatMap (wrapParagraph f m) := by
  unfold wrap_text
  rw [if_neg]
  simpa [List.isEmpty_iff] using wrap_flatMap_ne_nil f m text

theorem lineWidth_nil (f : PILFont) : lineWidth f [] = 0 := by
  simp [lineWidth]

theorem lineWidth_singleton (f : PILFont) (w : String) : lineWidth f [w] = f.width w := by
  simp [lineWidth]

theorem lineWidth_append_singleton (f : PILFont) (cur : List String) (w : String) :
    lineWidth f (cur ++ [w]) =
      lineWidth f cur + (f.width w + if cur.isEmpty then 0 else f.spaceWidth) := by
  cases cur with
  | nil => simp [lineWidth]
  | cons a as => simp [lineWidth, Nat.succ_sub_one]; ring

theorem wrapWords_sound (f : PILFont) (m : Nat) :
    ∀ (ws cur : List String) (cw : Nat),
      lineWidth f cur ≤ cw →
      (cur = [] ∨ cw ≤ m ∨ ∃ wd, cur = [wd]) →
      ∀ l ∈ wrapWords f m ws cur cw,
        lineWidth f l ≤ m ∨ ∃ wd, l = [wd] ∧ m < f.width wd := by
  intro ws
  induction ws with
  | nil =>
    intro cur cw h1 h2 l hl
    simp only [wrapWords] at hl
    by_cases hc : cur.isEmpty
    · simp [hc] at hl
    · simp [hc] at hl
      subst hl
      rcases h2 with rfl | h2 | ⟨wd, rfl⟩
      · simp at hc
      · exact Or.inl (h1.trans h2)
      · rcases le_or_lt (f.width wd) m with hle | hgt
        · exact Or.inl (by simpa [lineWidth_singleton] using hle)
        · exact Or.inr ⟨wd, rfl, hgt⟩
  | cons w ws ih =>
    intro cur cw h1 h2 l hl
    simp only [wrapWords] at hl
    by_cases hfit : cw + (f.width w + if cur.isEmpty then 0 else f.spaceWidth) ≤ m
    · rw [if_pos hfit] at hl
      refine ih (cur ++ [w]) _ ?_ (Or.inr (Or.inl hfit)) l hl
      rw [lineWidth_append_singleton]
      omega
    · rw [if_neg hfit] at hl
      rcases List.mem_append.mp hl with hmem | hmem
      · by_cases hc : cur.isEmpty
        · simp [hc] at hmem
        · simp [hc] at hmem
          subst hmem
          rcases h2 with rfl | h2 | ⟨wd, rfl⟩
          · simp at hc
          · exact Or.inl (h1.trans h2)
          · rcases le_or_lt (f.width wd) m with hle | hgt
            · exact Or.inl (by simpa [lineWidth_singleton] using hle)
            · exact Or.inr ⟨wd, rfl, hgt⟩
      · refine ih [w] _ ?_ (Or.inr (Or.inr ⟨w, rfl⟩)) l hmem
        rw [lineWidth_singleton]
        exact Nat.le_add_right _ _

theorem wrapWords_flatten (f : PILFont) (m : Nat) :
    ∀ (ws cur : List String) (cw : Nat),
      (wrapWords f m ws cur cw).flatten = cur ++ ws := by
  intro ws
  induction ws with
  | nil =>
    intro cur cw
    cases hc : cur.isEmpty
    · simp [wrapWords, hc]
    · have : cur = [] := by simpa using hc
      subst this
      simp [wrapWords]
  | cons w ws ih =>
    intro cur cw
    simp only [wrapWords]
    by_cases hfit : cw + (f.width w + if cur.isEmpty then 0 else f.spaceWidth) ≤ m
    · rw [if_pos hfit, ih]
      simp
    · rw [if_neg hfit]
      cases hc : cur.isEmpty
      · simp [hc, ih]
      · have : cur = [] := by simpa using hc
        subst this
        simp [ih]

theorem wrapWords_single (f : PILFont) (m : Nat) (w : String) :
    wrapWords f m [w] [] 0 = [[w]] := by
  simp only [wrapWords]
  by_cases h : 0 + (f.width w + if ([] : List String).isEmpty then 0 else f.spaceWidth) ≤ m
  · rw [if_pos h]
    simp [wrapWords]
  · rw [if_neg h]
    simp [wrapWords]

theorem wrapWords_pair (f : PILFont) (m : Nat) (a b : String)
    (h : f.width a + (f.width b + f.spaceWidth) ≤ m) :
    wrapWords f m [a, b] [] 0 = [[a, b]] := by
  have hA : f.width a ≤ m := by omega
  simp [wrapWords, hA, h]

theorem wrapParagraph_single (f : PILFont) (m : Nat) (p w : String)
    (hb : pyIsBlank p = false) (hw : pyWords p = [w]) :
    wrapParagraph f m p = [w] := by
  unfold wrapParagraph
  rw [if_neg (by simp [hb]), hw, wrapWords_single]
  simp [joinSp, String.intercalate, String.intercalate.go]

theorem font_size_eq (text : String) : calculate_font_size text = fontSizeSpec text := by
  have h57 : CAPTION_FONT_SIZE * 12 / 10 = 57 := by norm_num [CAPTION_FONT_SIZE]
  simp only [calculate_font_size, fontSizeSpec, longestLineLen, splitNl_isEmpty,
    Bool.false_eq_true, if_false, h57]

/-- Fixture: a font whose pixel metric is the character count, with a
one-pixel space advance. -/
def unitFont : PILFont := ⟨String.length, 1⟩

/-- Fixture: a world where every file exists, every audio track decodes to
duration 0, the configured font fails to load, and the moviepy calls all
succeed. -/
def idleWorld : World :=
  { fileExists := fun _ => true
    audioDuration := fun _ => 0
    loadFont := fun _ _ => Except.error "OSError"
    defaultFont := unitFont
    clipError := fun _ => none
    concatError := none
    writeError := none }

/-- Fixture: like `idleWorld` but `concatenate_videoclips` raises, which is
what moviepy does on an empty clip list. -/
def emptyConcatWorld : World :=
  { idleWorld with concatError := some "max() arg is an empty sequence" }

/-- Fixture: a single line of 90 characters. -/
def line90 : String := String.mk (List.replicate 90 'x')

/-- Fixture: a single line of 20 characters. -/
def line20 : String := String.mk (List.replicate 20 'y')

/-- `True` iff `build_video`'s outcome is a raised `ValueError` (the
specification's `InvalidInput`). -/
def isValueError : Except PyError String → Bool
  | Except.error (PyError.valueError _) => true
  | _ => false

/-! ### Claim theorems -/

/-- Claim C1: for every input text, font and positive `max_width`, every
line `_wrap_text` returns is the space-join of a word list that either has
pixel width (additive metric) at most `max_width`, or consists of a single
word whose own pixel width exceeds `max_width` (so the oversized word sits
alone on its own line); moreover no word is dropped: for every non-blank
paragraph, the words of its output lines concatenate back to exactly the
paragraph's words. -/
theorem wrap_lines_within_budget (f : PILFont) (max_width : Nat) (text : String)
    (hpos : 0 < max_width) :
    (∀ line ∈ wrap_text f max_width text,
      ∃ ws, line = joinSp ws ∧
        (lineWidth f ws ≤ max_width ∨ ∃ wd, ws = [wd] ∧ max_width < f.width wd)) ∧
    (∀ p ∈ splitNl text, pyIsBlank p = false →
      ∃ wss : List (List String), wrapParagraph f max_width p = wss.map joinSp ∧
        wss.flatten = pyWords p) := by
  constructor
  · intro line hline
    rw [wrap_text_eq] at hline
    rcases List.mem_flatMap.mp hline with ⟨p, hp, hpl⟩
    unfold wrapParagraph at hpl
    by_cases hb : pyIsBlank p
    · rw [if_pos hb] at hpl
      simp only [List.mem_singleton] at hpl
      subst hpl
      refine ⟨[], by simp [joinSp, String.intercalate], Or.inl ?_⟩
      rw [lineWidth_nil]
      exact Nat.zero_le _
    · rw [if_neg hb] at hpl
      rcases List.mem_map.mp hpl with ⟨ws, hws, rfl⟩
      exact ⟨ws, rfl,
        wrapWords_sound f max_width _ [] 0 (by rw [lineWidth_nil]) (Or.inl rfl) ws hws⟩
  · intro p _ hb
    refine ⟨wrapWords f max_width (pyWords p) [] 0, ?_, ?_⟩
    · unfold wrapParagraph
      rw [if_neg (by simp [hb])]
    · simpa using wrapWords_flatten f max_width (pyWords p) [] 0

/-- Witness for C1 at a concrete font, width budget and text. -/
theorem wrap_lines_within_budget_witness :
    0 < 12 ∧
    ((∀ line ∈ wrap_text unitFont 12 "hello wide world",
      ∃ ws, line = joinSp ws ∧
        (lineWidth unitFont ws ≤ 12 ∨ ∃ wd, ws = [wd] ∧ 12 < unitFont.width wd)) ∧
    (∀ p ∈ splitNl "hello wide world", pyIsBlank p = false →
      ∃ wss : List (List String), wrapParagraph unitFont 12 p = wss.map joinSp ∧
        wss.flatten = pyWords p)) :=
  ⟨by decide, wrap_lines_within_budget unitFont 12 "hello wide world" (by decide)⟩

/-- Claim C10: `_wrap_text` is total and never reaches its final fallback
branch: splitting on newlines always yields at least one paragraph, every
paragraph contributes at least one output line, the resulting line list is
non-empty, and therefore the returned value is exactly the

paragraph-by-paragraph concatenation (the `[text]` fallback is dead). -/
theorem wrap_text_total (f : PILFont) (max_width : Nat) (text : String) :
    splitNl text ≠ [] ∧
    wrap_text f max_width text = (splitNl text).flatMap (wrapParagraph f max_width) ∧
    wrap_text f max_width text ≠ [] ∧
    ∀ p ∈ splitNl text, wrapParagraph f max_width p ≠ [] := by
  refine ⟨splitNl_ne_nil text, wrap_text_eq f max_width text, ?_, ?_⟩
  · rw [wrap_text_eq]
    exact wrap_flatMap_ne_nil f max_width text
  · intro p _
    exact wrapParagraph_ne_nil f max_width p

/-- Witness for C10 at a concrete font, width budget and text. -/
theorem wrap_text_total_witness :
    splitNl "hi" ≠ [] ∧
    wrap_text unitFont 5 "hi" = (splitNl "hi").flatMap (wrapParagraph unitFont 5) ∧
    wrap_text unitFont 5 "hi" ≠ [] ∧
    wrapParagraph unitFont 5 "hi" ≠ [] :=
  ⟨(wrap_text_total unitFont 5 "hi").1,
   (wrap_text_total unitFont 5 "hi").2.1,
   (wrap_text_total unitFont 5 "hi").2.2.1,
   (wrap_text_total unitFont 5 "hi").2.2.2 "hi" (by decide)⟩

/-- Claim C7: the input `"A\n\nB"` wraps to exactly three lines — `"A"`,
one empty spacer line, `"B"` — and in general every blank-only paragraph
contributes exactly the single empty line `[""]`, never nothing. -/
theorem blank_paragraph_spacer (f : PILFont) (max_width : Nat) (p : String) :
    wrap_text f max_width "A\n\nB" = ["A", "", "B"] ∧
    (pyIsBlank p = true → wrapParagraph f max_width p = [""]) := by
  constructor
  · rw [wrap_text_eq]
    have hs : splitNl "A\n\nB" = ["A", "", "B"] := by decide
    rw [hs]
    have hA : wrapParagraph f max_width "A" = ["A"] :=
      wrapParagraph_single f max_width "A" "A" (by decide) (by decide)
    have hB : wrapParagraph f max_width "B" = ["B"] :=
      wrapParagraph_single f max_width "B" "B" (by decide) (by decide)
    have hE : wrapParagraph f max_width "" = [""] := by
      unfold wrapParagraph
      rw [if_pos (by decide)]
    simp [hA, hB, hE]
  · intro hb
    unfold wrapParagraph
    rw [if_pos hb]

/-- Witness for C7 at a concrete font, width budget and blank paragraph. -/
theorem blank_paragraph_spacer_witness :
    pyIsBlank " " = true ∧
    wrap_text unitFont 5 "A\n\nB" = ["A", "", "B"] ∧
    wrapParagraph unitFont 5 " " = [""] :=
  ⟨by decide,
   (blank_paragraph_spacer unitFont 5 " ").1,
   (blank_paragraph_spacer unitFont 5 " ").2 (by decide)⟩

/-- Claim C2: explicit newlines are hard wrap boundaries.  In general,
wrapping `s1 ++ "\n" ++ s2` (with `s1` newline-free) yields exactly the
lines of paragraph `s1` followed by the lines of the remaining text, so
words on opposite sides of the newline can never share an output line; in
particular `"A B\nC D"`, under a budget generous enough for each half,
wraps to exactly `["A B", "C D"]`. -/
theorem newline_hard_boundary (f : PILFont) (max_width : Nat) (s1 s2 : String)
    (h1 : '\n' ∉ s1.data)
    (hAB : f.width "A" + (f.width "B" + f.spaceWidth) ≤ max_width)
    (hCD : f.width "C" + (f.width "D" + f.spaceWidth) ≤ max_width) :
    wrap_text f max_width (s1 ++ "\n" ++ s2) =
      wrapParagraph f max_width s1 ++
        (splitNl s2).flatMap (wrapParagraph f max_width) ∧
    wrap_text f max_width "A B\nC D" = ["A B", "C D"] := by
  constructor
  · rw [wrap_text_eq]
    have hd : (s1 ++ "\n" ++ s2).data = s1.data ++ '\n' :: s2.data := by
      simp [String.data_append]
    have hs : splitNl (s1 ++ "\n" ++ s2) = s1 :: splitNl s2 := by
      unfold splitNl
      rw [hd, splitChar_append _ _ _ h1]
      simp [mk_data, splitNl]
    rw [hs, List.flatMap_cons]
  · rw [wrap_text_eq]
    have hs : splitNl "A B\nC D" = ["A B", "C D"] := by decide
    rw [hs]
    have hp1 : wrapParagraph f max_width "A B" = ["A B"] := by
      unfold wrapParagraph
      rw [if_neg (by decide), show pyWords "A B" = ["A", "B"] by decide,
        wrapWords_pair f max_width "A" "B" hAB]
      simp [joinSp, String.intercalate, String.intercalate.go]
    have hp2 : wrapParagraph f max_width "C D" = ["C D"] := by
      unfold wrapParagraph
      rw [if_neg (by decide), show pyWords "C D" = ["C", "D"] by decide,
        wrapWords_pair f max_width "C" "D" hCD]
      simp [joinSp, String.intercalate, String.intercalate.go]
    simp [hp1, hp2]

/-- Witness for C2 at a concrete font and width budget. -/
theorem newline_hard_boundary_witness :
    ('\n' ∉ "A B".data ∧
      unitFont.width "A" + (unitFont.width "B" + unitFont.spaceWidth) ≤ 10 ∧
      unitFont.width "C" + (unitFont.width "D" + unitFont.spaceWidth) ≤ 10) ∧
    (wrap_text unitFont 10 ("A B" ++ "\n" ++ "C D") =
      wrapParagraph unitFont 10 "A B" ++
        (splitNl "C D").flatMap (wrapParagraph unitFont 10) ∧
    wrap_text unitFont 10 "A B\nC D" = ["A B", "C D"]) :=
  ⟨⟨by decide, by decide, by decide⟩,
   newline_hard_boundary unitFont 10 "A B" "C D" (by decide) (by decide) (by decide)⟩

/-- Claim C3: the selected font size follows the documented rule exactly:
with `L` the character count of the longest explicit line and base size
48, it is `max (48 * 60 / L) 32` for `L > 60`, `min 57 72` (with
`57 = floor(48 * 1.2)`) for `L < 30`, and `48` otherwise. -/
theorem font_size_formula (text : String) :
    calculate_font_size text = fontSizeSpec text :=
  font_size_eq text

/-- Claim C4: the computed font size is anti-monotone across the clamp
thresholds — a 90-character longest line yields a strictly smaller size
than a 20-character longest line — and for every input text the size lies
in the interval `[32, 72]`. -/
theorem font_size_monotone_clamped :
    (∀ t1 t2 : String, longestLineLen t1 = 90 → longestLineLen t2 = 20 →
      calculate_font_size t1 < calculate_font_size t2) ∧
    (∀ t : String, 32 ≤ calculate_font_size t ∧ calculate_font_size t ≤ 72) := by
  constructor
  · intro t1 t2 h90 h20
    rw [font_size_eq, font_size_eq]
    unfold fontSizeSpec
    rw [h90, h20]
    norm_num [CAPTION_FONT_SIZE]
  · intro t
    rw [font_size_eq]
    unfold fontSizeSpec
    by_cases h60 : 60 < longestLineLen t
    · rw [if_pos h60]
      have hdiv : CAPTION_FONT_SIZE * 60 / longestLineLen t ≤ 47 := by
        have h : CAPTION_FONT_SIZE * 60 / longestLineLen t ≤ CAPTION_FONT_SIZE * 60 / 61 :=
          Nat.div_le_div_left (by omega) (by omega)
        simpa [CAPTION_FONT_SIZE] using h
      constructor
      · exact le_max_right _ _
      · exact max_le (by omega) (by omega)
    · rw [if_neg h60]
      by_cases h30 : longestLineLen t < 30
      · rw [if_pos h30]
        norm_num [CAPTION_FONT_SIZE]
      · rw [if_neg h30]
        norm_num [CAPTION_FONT_SIZE]

/-- Witness for C4 at concrete 90- and 20-character texts. -/
theorem font_size_monotone_clamped_witness :
    (longestLineLen line90 = 90 ∧ longestLineLen line20 = 20) ∧
    calculate_font_size line90 < calculate_font_size line20 :=
  ⟨⟨by decide, by decide⟩,
   font_size_monotone_clamped.1 line90 line20 (by decide) (by decide)⟩

theorem zip3_nil_left {α β γ : Type} (y : List β) (z : List γ) :
    zip3 ([] : List α) y z = [] := rfl

theorem buildClipsLoop_nil (w : World) (i : Nat) :
    buildClipsLoop w [] i = ([], Except.ok []) := rfl

/-- Claim C5: a structural mismatch — stanza count different from audio
count, or fewer backgrounds than stanzas — makes `build_video` raise
`ValueError` (the specification's `InvalidInput`) with an empty effect
trace: no directory creation, no clip rendering, and no output file write
happen first. -/
theorem build_video_fail_fast (w : World) (backgrounds stanzas audio_paths : List String)
    (output_path : String)
    (h : stanzas.length ≠ audio_paths.length ∨ backgrounds.length < stanzas.length) :
    ∃ msg, build_video w backgrounds stanzas audio_paths output_path
      = ([], Except.error (PyError.valueError msg)) := by
  unfold build_video
  rcases h with h | h
  · rw [if_pos h]
    exact ⟨_, rfl⟩
  · by_cases h1 : stanzas.length ≠ audio_paths.length
    · rw [if_pos h1]
      exact ⟨_, rfl⟩
    · rw [if_neg h1, if_pos h]
      exact ⟨_, rfl⟩

/-- Witness for C5: three stanzas but only two audio paths. -/
theorem build_video_fail_fast_witness :
    ((["s1", "s2", "s3"] : List String).length ≠ (["a1", "a2"] : List String).length ∨
      (["b1", "b2", "b3"] : List String).length < (["s1", "s2", "s3"] : List String).length) ∧
    ∃ msg, build_video idleWorld ["b1", "b2", "b3"] ["s1", "s2", "s3"] ["a1", "a2"] "out.mp4"
      = ([], Except.error (PyError.valueError msg)) :=
  ⟨Or.inl (by decide),
   build_video_fail_fast idleWorld ["b1", "b2", "b3"] ["s1", "s2", "s3"] ["a1", "a2"]
     "out.mp4" (Or.inl (by decide))⟩

/-- Claim C6: a stanza clip's duration is exactly the decoded audio
track's duration, and its two layers — background and caption overlay —
both carry exactly that duration at the shared frame rate `VIDEO_FPS`. -/
theorem stanza_clip_duration (w : World) (stanza audio_path background_path : String)
    (n : Nat) :
    (create_stanza_clip w stanza audio_path background_path n).duration
        = w.audioDuration audio_path ∧
    ∃ bg txt : ImageClipM,
      (create_stanza_clip w stanza audio_path background_path n).layers = [bg, txt] ∧
      bg.duration = w.audioDuration audio_path ∧
      txt.duration = w.audioDuration audio_path ∧
      bg.fps = VIDEO_FPS ∧ txt.fps = VIDEO_FPS := by
  refine ⟨?_, ⟨_, _, rfl, rfl, rfl, rfl, rfl⟩⟩
  simp [create_stanza_clip, create_text_clip]

/-- Claim C8, counterexample: with empty stanza, audio and background
lists, `build_video` passes both structural validations, creates the
output directory, reaches the moviepy concatenation (which raises on an
empty clip list), and surfaces a generic `RuntimeError` — not the
`ValueError`/`InvalidInput` the claim asserts. -/
theorem empty_input_runtime_error :
    build_video emptyConcatWorld [] [] [] "out.mp4"
      = ([Effect.mkdirOutputParent, Effect.concatenate],
         Except.error (PyError.runtimeError
           "Video generation failed: max() arg is an empty sequence")) ∧
    isValueError (build_video emptyConcatWorld [] [] [] "out.mp4").2 = false := by
  constructor
  · rfl
  · rfl

/-- Claim C8, amended: `build_video` applied to empty stanza, audio and
background lists is never rejected with `ValueError` — there is no
`len(clips) >= 1` precondition check.  Validation passes, the output
directory is created first, and the outcome is either success or a
generic `RuntimeError` from the moviepy calls inside the `try` block. -/
theorem empty_input_not_invalid (w : World) (output_path : String) :
    (build_video w [] [] [] output_path).1.head? = some Effect.mkdirOutputParent ∧
    (∀ msg, (build_video w [] [] [] output_path).2
        ≠ Except.error (PyError.valueError msg)) ∧
    ((∃ msg, (build_video w [] [] [] output_path).2
        = Except.error (PyError.runtimeError ("Video generation failed: " ++ msg))) ∨
      (build_video w [] [] [] output_path).2 = Except.ok output_path) := by
  rcases hc : w.concatError with _ | cmsg
  · rcases hw : w.writeError with _ | wmsg
    · have hb : build_video w [] [] [] output_path =
          ([Effect.mkdirOutputParent, Effect.concatenate, Effect.writeVideo output_path],
           Except.ok output_path) := by
        simp [build_video, zip3, buildClipsLoop, hc, hw]
      refine ⟨by simp [hb], ?_, Or.inr (by simp [hb])⟩
      intro msg
      simp [hb]
    · have hb : build_video w [] [] [] output_path =
          ([Effect.mkdirOutputParent, Effect.concatenate, Effect.writeVideo output_path],
           Except.error (PyError.runtimeError ("Video generation failed: " ++ wmsg))) := by
        simp [build_video, zip3, buildClipsLoop, hc, hw]
      refine ⟨by simp [hb], ?_, Or.inl ⟨wmsg, by simp [hb]⟩⟩
      intro msg
      simp [hb]
  · have hb : build_video w [] [] [] output_path =
        ([Effect.mkdirOutputParent, Effect.concatenate],
         Except.error (PyError.runtimeError ("Video generation failed: " ++ cmsg))) := by
      simp [build_video, zip3, buildClipsLoop, hc]
    refine ⟨by simp [hb], ?_, Or.inl ⟨cmsg, by simp [hb]⟩⟩
    intro msg
    simp [hb]

/-- Witness for the amended C8 at a concrete world and output path. -/
theorem empty_input_not_invalid_witness :
    (build_video idleWorld [] [] [] "o.mp4").1.head? = some Effect.mkdirOutputParent ∧
    (build_video idleWorld [] [] [] "o.mp4").2 ≠ Except.error (PyError.valueError "boom") ∧
    ((∃ msg, (build_video idleWorld [] [] [] "o.mp4").2
        = Except.error (PyError.runtimeError ("Video generation failed: " ++ msg))) ∨
      (build_video idleWorld [] [] [] "o.mp4").2 = Except.ok "o.mp4") :=
  ⟨(empty_input_not_invalid idleWorld "o.mp4").1,
   (empty_input_not_invalid idleWorld "o.mp4").2.1 "boom",
   (empty_input_not_invalid idleWorld "o.mp4").2.2⟩

/-- Claim C9: the font-resolution chain of `_create_text_clip` never
raises: for every requested font path and size, whatever the outcomes of
the individual `ImageFont.truetype` attempts, it returns a drawable font
(the configured font, a system candidate, or the built-in default). -/
theorem resolve_font_never_raises (w : World) (requested : String) (size : Nat) :
    ∃ f, resolve_font w requested size = Except.ok f := by
  unfold resolve_font
  cases w.loadFont requested size with
  | ok f => exact ⟨f, rfl⟩
  | error e =>
    cases h : tryFontPaths w size FONT_PATH_CANDIDATES with
    | some f => exact ⟨f, rfl⟩
    | none => exact ⟨w.defaultFont, rfl⟩
